import Mathlib

/-!
Shallow embedding of the library-management service
(`app/services/livre_service.py`, `app/services/emprunteur_service.py`,
`app/services/emprunt_service.py` over the SQLAlchemy models in
`app/models/`).

The SQLAlchemy session is modelled as an explicit `Store` value holding the
three tables; each service method is a pure function from a `Store` (and its
arguments) to `Except HTTPError (Store × result)`.  A raised `HTTPException`
becomes `Except.error` carrying the HTTP status code; on an error the
transaction is rolled back, so the caller keeps the unchanged store
(`step` below).  Primary keys are modelled by monotone per-table counters,
and the row-creation timestamps by a logical `clock` bumped on every insert.
Error detail strings are kept close to the source but transliterated to
plain ASCII.

Two store-level behaviours of the source configuration matter and are
embedded faithfully:
* `Livre.emprunts` and `Emprunteur.emprunts` are declared with
  `cascade="all, delete-orphan"` (`app/models/livre.py`,
  `app/models/emprunteur.py`), so `session.delete` on a parent row also
  deletes every `Emprunt` row referencing it and never raises
  `IntegrityError`; the SQLite engine in `app/database.py` does not enable
  foreign-key enforcement either.
* `db.query(...).offset(skip).limit(limit)` is modelled by
  `List.drop`/`List.take`; the routers pass the caller-supplied `limit`
  straight through without clamping it.
-/

/-- Row of the `livres` table (`app/models/livre.py`). -/
structure Livre where
  id : Nat
  titre : String
  auteur : String
  annee_publication : Int
  disponible : Bool
  date_creation : Nat
deriving Repr, DecidableEq

/-- Row of the `emprunteurs` table (`app/models/emprunteur.py`). -/
structure Emprunteur where
  id : Nat
  nom : String
  email : String
  date_creation : Nat
deriving Repr, DecidableEq

/-- Row of the `emprunts` table (`app/models/emprunt.py`). -/
structure Emprunt where
  id : Nat
  livre_id : Nat
  emprunteur_id : Nat
  date_emprunt : Nat
deriving Repr, DecidableEq

/-- The record store: the three tables plus primary-key counters and the
logical clock used for creation timestamps. -/
structure Store where
  livres : List Livre
  emprunteurs : List Emprunteur
  emprunts : List Emprunt
  nextLivreId : Nat
  nextEmprunteurId : Nat
  nextEmpruntId : Nat
  clock : Nat
deriving Repr, DecidableEq

/-- A freshly created database (`Base.metadata.create_all` on a new file). -/
def emptyStore : Store := ⟨[], [], [], 1, 1, 1, 0⟩

/-- A raised `fastapi.HTTPException`: status code and detail message. -/
structure HTTPError where
  status : Nat
  detail : String
deriving Repr, DecidableEq

/-- `LivreCreateDTO` (`app/schemas/livre.py`). -/
structure LivreCreateDTO where
  titre : String
  auteur : String
  annee_publication : Int
deriving Repr, DecidableEq

/-- `LivreUpdateDTO` (`app/schemas/livre.py`): every field optional,
`none` meaning the field was not set in the request
(`dict(exclude_unset=True)` skips it). -/
structure LivreUpdateDTO where
  titre : Option String := none
  auteur : Option String := none
  annee_publication : Option Int := none
  disponible : Option Bool := none
deriving Repr, DecidableEq

/-- `EmprunteurCreateDTO` (`app/schemas/emprunteur.py`). -/
structure EmprunteurCreateDTO where
  nom : String
  email : String
deriving Repr, DecidableEq

/-- `EmpruntCreateDTO` (`app/schemas/emprunt.py`). -/
structure EmpruntCreateDTO where
  livre_id : Nat
  emprunteur_id : Nat
deriving Repr, DecidableEq

/-- `LivreService.get_livre_by_id`: `query(Livre).filter(Livre.id == livre_id).first()`. -/
def get_livre_by_id (db : Store) (livre_id : Nat) : Option Livre :=
  db.livres.find? (fun l => l.id == livre_id)

/-- `EmprunteurService.get_emprunteur_by_id`. -/
def get_emprunteur_by_id (db : Store) (emprunteur_id : Nat) : Option Emprunteur :=
  db.emprunteurs.find? (fun e => e.id == emprunteur_id)

/-- `EmprunteurService.get_emprunteur_by_email`. -/
def get_emprunteur_by_email (db : Store) (email : String) : Option Emprunteur :=
  db.emprunteurs.find? (fun e => e.email == email)

/-- `LivreService.get_livres`: `query(Livre).offset(skip).limit(limit).all()`. -/
def get_livres (db : Store) (skip limit : Nat) : List Livre :=
  (db.livres.drop skip).take limit

/-- `EmpruntService.get_emprunts`: `query(Emprunt).offset(skip).limit(limit).all()`. -/
def get_emprunts (db : Store) (skip limit : Nat) : List Emprunt :=
  (db.emprunts.drop skip).take limit

/-- `EmprunteurService.get_emprunteurs`. -/
def get_emprunteurs (db : Store) (skip limit : Nat) : List Emprunteur :=
  (db.emprunteurs.drop skip).take limit

/-- `LivreService.create_livre`: always inserts with `disponible=True`. -/
def create_livre (db : Store) (d : LivreCreateDTO) : Except HTTPError (Store × Livre) :=
  let l : Livre :=
    ⟨db.nextLivreId, d.titre, d.auteur, d.annee_publication, true, db.clock⟩
  Except.ok
    ({ db with
        livres := db.livres ++ [l]
        nextLivreId := db.nextLivreId + 1
        clock := db.clock + 1 }, l)

/-- The `setattr` loop of `LivreService.update_livre` over
`livre_data.dict(exclude_unset=True)`. -/
def applyLivreUpdate (d : LivreUpdateDTO) (l : Livre) : Livre :=
  let l := match d.titre with | some t => { l with titre := t } | none => l
  let l := match d.auteur with | some a => { l with auteur := a } | none => l
  let l := match d.annee_publication with
           | some y => { l with annee_publication := y } | none => l
  match d.disponible with | some b => { l with disponible := b } | none => l

/-- `LivreService.update_livre`. -/
def update_livre (db : Store) (livre_id : Nat) (d : LivreUpdateDTO) :
    Except HTTPError (Store × Livre) :=
  match get_livre_by_id db livre_id with
  | none =>
      Except.error ⟨404, "Livre avec ID " ++ toString livre_id ++ " non trouve"⟩
  | some l =>
      let l2 := applyLivreUpdate d l
      Except.ok
        ({ db with
            livres := db.livres.map (fun x => if x.id == livre_id then l2 else x) },
         l2)

/-- `LivreService.delete_livre`.  `session.delete` on the `Livre`
cascade-deletes every `Emprunt` referencing it
(`cascade="all, delete-orphan"` on `Livre.emprunts`), so the
`IntegrityError` branch of the source is unreachable and the delete
always succeeds once the book was found. -/
def delete_livre (db : Store) (livre_id : Nat) : Except HTTPError Store :=
  match get_livre_by_id db livre_id with
  | none =>
      Except.error ⟨404, "Livre avec ID " ++ toString livre_id ++ " non trouve"⟩
  | some _ =>
      Except.ok
        { db with
            livres := db.livres.filter (fun l => l.id != livre_id)
            emprunts := db.emprunts.filter (fun e => e.livre_id != livre_id) }

/-- `LivreService.set_livre_disponibilite` (defined in the service layer;
no router calls it). -/
def set_livre_disponibilite (db : Store) (livre_id : Nat) (disponible : Bool) :
    Option (Store × Livre) :=
  match get_livre_by_id db livre_id with
  | none => none
  | some l =>
      let l2 := { l with disponible := disponible }
      some
        ({ db with
            livres := db.livres.map (fun x => if x.id == livre_id then l2 else x) },
         l2)

/-- `EmprunteurService.create_emprunteur`: application-level uniqueness
check on the email before the insert. -/
def create_emprunteur (db : Store) (d : EmprunteurCreateDTO) :
    Except HTTPError (Store × Emprunteur) :=
  match get_emprunteur_by_email db d.email with
  | some _ =>
      Except.error ⟨400, "Un emprunteur avec email " ++ d.email ++ " existe deja"⟩
  | none =>
      let e : Emprunteur := ⟨db.nextEmprunteurId, d.nom, d.email, db.clock⟩
      Except.ok
        ({ db with
            emprunteurs := db.emprunteurs ++ [e]
            nextEmprunteurId := db.nextEmprunteurId + 1
            clock := db.clock + 1 }, e)

/-- `EmprunteurService.delete_emprunteur`: guarded by the count of
`Emprunt` rows referencing the borrower. -/
def delete_emprunteur (db : Store) (emprunteur_id : Nat) : Except HTTPError Store :=
  match db.emprunteurs.find? (fun e => e.id == emprunteur_id) with
  | none =>
      Except.error
        ⟨404, "Emprunteur avec ID " ++ toString emprunteur_id ++ " non trouve"⟩
  | some _ =>
      let n := (db.emprunts.filter (fun e => e.emprunteur_id == emprunteur_id)).length
      if n > 0 then
        Except.error
          ⟨400, "Impossible de supprimer emprunteur " ++ toString emprunteur_id⟩
      else
        Except.ok
          { db with
              emprunteurs := db.emprunteurs.filter (fun e => e.id != emprunteur_id) }

/-- `EmpruntService.create_emprunt`: existence checks on the book and the
borrower, availability check, then one transaction inserting the loan and
flipping `disponible` to `False`. -/
def create_emprunt (db : Store) (d : EmpruntCreateDTO) :
    Except HTTPError (Store × Emprunt) :=
  match get_livre_by_id db d.livre_id with
  | none =>
      Except.error ⟨404, "Livre avec ID " ++ toString d.livre_id ++ " non trouve"⟩
  | some livre =>
      match get_emprunteur_by_id db d.emprunteur_id with
      | none =>
          Except.error
            ⟨404, "Emprunteur avec ID " ++ toString d.emprunteur_id ++ " non trouve"⟩
      | some _ =>
          if livre.disponible = false then
            Except.error
              ⟨400, "Le livre " ++ livre.titre ++ " est indisponible"⟩
          else
            let em : Emprunt :=
              ⟨db.nextEmpruntId, d.livre_id, d.emprunteur_id, db.clock⟩
            Except.ok
              ({ db with
                  emprunts := db.emprunts ++ [em]
                  livres := db.livres.map
                    (fun x => if x.id == d.livre_id
                              then { x with disponible := false } else x)
                  nextEmpruntId := db.nextEmpruntId + 1
                  clock := db.clock + 1 }, em)

/-- `EmpruntService.retourner_livre`. -/
def retourner_livre (db : Store) (livre_id : Nat) :
    Except HTTPError (Store × Livre) :=
  match get_livre_by_id db livre_id with
  | none =>
      Except.error ⟨404, "Livre avec ID " ++ toString livre_id ++ " non trouve"⟩
  | some livre =>
      if livre.disponible then
        Except.error ⟨400, "Le livre " ++ livre.titre ++ " est deja disponible"⟩
      else
        let l2 := { livre with disponible := true }
        Except.ok
          ({ db with
              livres := db.livres.map (fun x => if x.id == livre_id then l2 else x) },
           l2)

/-- One mutating request, as dispatched by the routers in `app/routers/`
(`set_livre_disponibilite` is included as a service-level operation even
though no router exposes it). -/
inductive Op where
  | createLivre (d : LivreCreateDTO)
  | updateLivre (livre_id : Nat) (d : LivreUpdateDTO)
  | deleteLivre (livre_id : Nat)
  | setLivreDisponibilite (livre_id : Nat) (b : Bool)
  | createEmprunteur (d : EmprunteurCreateDTO)
  | deleteEmprunteur (emprunteur_id : Nat)
  | createEmprunt (d : EmpruntCreateDTO)
  | retournerLivre (livre_id : Nat)
deriving Repr, DecidableEq

/-- Running one operation against the store: on success the committed
store, on a raised `HTTPException` the rolled-back (unchanged) store. -/
def step (db : Store) : Op → Store
  | Op.createLivre d =>
      match create_livre db d with | Except.ok (s, _) => s | Except.error _ => db
  | Op.updateLivre lid d =>
      match update_livre db lid d with | Except.ok (s, _) => s | Except.error _ => db
  | Op.deleteLivre lid =>
      match delete_livre db lid with | Except.ok s => s | Except.error _ => db
  | Op.setLivreDisponibilite lid b =>
      match set_livre_disponibilite db lid b with | some (s, _) => s | none => db
  | Op.createEmprunteur d =>
      match create_emprunteur db d with | Except.ok (s, _) => s | Except.error _ => db
  | Op.deleteEmprunteur eid =>
      match delete_emprunteur db eid with | Except.ok s => s | Except.error _ => db
  | Op.createEmprunt d =>
      match create_emprunt db d with | Except.ok (s, _) => s | Except.error _ => db
  | Op.retournerLivre lid =>
      match retourner_livre db lid with | Except.ok (s, _) => s | Except.error _ => db

/-- Modelled from the spec: the spec speaks of a Loan that "has not been
reversed by a subsequent return action on that book", a notion the store
itself does not record (loans carry no returned flag).  This ghost tracker
follows the spec's words: a successful borrow adds the book's id to the
list of books with an unreversed loan, a successful return reverses every
loan of that book, and deleting a book removes its (cascade-deleted) loans
from the tracker. -/
def specUnreversed (db : Store) (act : List Nat) : Op → List Nat
  | Op.createEmprunt d =>
      match create_emprunt db d with
      | Except.ok _ => d.livre_id :: act
      | Except.error _ => act
  | Op.retournerLivre lid =>
      match retourner_livre db lid with
      | Except.ok _ => act.filter (fun x => x != lid)
      | Except.error _ => act
  | Op.deleteLivre lid =>
      match delete_livre db lid with
      | Except.ok _ => act.filter (fun x => x != lid)
      | Except.error _ => act
  | _ => act

/-- The store paired with the spec-side unreversed-loan tracker, advanced
by one operation. -/
def stepA (p : Store × List Nat) (op : Op) : Store × List Nat :=
  (step p.1 op, specUnreversed p.1 p.2 op)

/-- Replaying a trace of operations from the fresh database. -/
def runA (tr : List Op) : Store × List Nat :=
  tr.foldl stepA (emptyStore, [])

/-- The store reached by a trace of operations. -/
def run (tr : List Op) : Store :=
  (runA tr).1

/-- The spec's invariant, stated over a store paired with the tracker: a
book's availability flag is `false` iff the book has at least one
unreversed Loan. -/
def flagLoanInvariant (p : Store × List Nat) : Prop :=
  ∀ b ∈ p.1.livres, (b.disponible = false ↔ b.id ∈ p.2)

instance (p : Store × List Nat) : Decidable (flagLoanInvariant p) := by
  unfold flagLoanInvariant
  infer_instance

/-! ### Helper lemmas -/

theorem find?_map_pred_comm {α : Type} (g : α → α) (p : α → Bool)
    (hp : ∀ x, p (g x) = p x) :
    ∀ l : List α, (l.map g).find? p = (l.find? p).map g := by
  intro l
  induction l with
  | nil => rfl
  | cons a t ih =>
    cases h : p a <;> simp [List.find?, h, hp a, ih]

theorem get_livre_by_id_livres (db : Store) (lid : Nat) :
    get_livre_by_id db lid = db.livres.find? (fun l => l.id == lid) := rfl

theorem applyLivreUpdate_id (d : LivreUpdateDTO) (l : Livre) :
    (applyLivreUpdate d l).id = l.id := by
  unfold applyLivreUpdate
  cases d.titre <;> cases d.auteur <;> cases d.annee_publication <;>
    cases d.disponible <;> rfl

theorem applyLivreUpdate_disponible (d : LivreUpdateDTO) (l : Livre) (b : Bool)
    (h : d.disponible = some b) :
    (applyLivreUpdate d l).disponible = b := by
  unfold applyLivreUpdate
  rw [h]

theorem applyLivreUpdate_disponible_none (d : LivreUpdateDTO) (l : Livre)
    (h : d.disponible = none) :
    (applyLivreUpdate d l).disponible = l.disponible := by
  unfold applyLivreUpdate
  rw [h]
  cases d.titre <;> cases d.auteur <;> cases d.annee_publication <;> rfl

theorem get_livre_by_id_id (db : Store) (lid : Nat) (livre : Livre)
    (h : get_livre_by_id db lid = some livre) : livre.id = lid := by
  rw [get_livre_by_id_livres] at h
  have := List.find?_some h
  simpa using this

theorem get_livre_by_id_mem (db : Store) (lid : Nat) (livre : Livre)
    (h : get_livre_by_id db lid = some livre) : livre ∈ db.livres := by
  rw [get_livre_by_id_livres] at h
  exact List.mem_of_find?_eq_some h

theorem find?_if_update (l : List Livre) (lid : Nat) (r : Livre → Livre)
    (hr : ∀ x, x.id = lid → (r x).id = lid) :
    (l.map (fun x => if x.id == lid then r x else x)).find? (fun x => x.id == lid)
      = (l.find? (fun x => x.id == lid)).map
          (fun x => if x.id == lid then r x else x) := by
  apply find?_map_pred_comm
  intro x
  by_cases hx : x.id = lid
  · simp [hx, hr x hx]
  · simp [hx]

theorem get_livre_by_id_if_update (db : Store) (lid : Nat) (livre : Livre)
    (hl : get_livre_by_id db lid = some livre)
    (r : Livre → Livre) (hr : ∀ x, x.id = lid → (r x).id = lid) :
    (db.livres.map (fun x => if x.id == lid then r x else x)).find?
        (fun x => x.id == lid) = some (r livre) := by
  rw [find?_if_update db.livres lid r hr]
  rw [get_livre_by_id_livres] at hl
  rw [hl]
  have hid : livre.id = lid := by simpa using List.find?_some hl
  simp [hid]

/-! ### Concrete fixtures for witnesses and counterexamples -/

/-- The book of the running example of the spec. -/
def livreA : Livre := ⟨1, "Les Miserables", "Victor Hugo", 1862, true, 0⟩

/-- The same book while on loan. -/
def livreApris : Livre := { livreA with disponible := false }

/-- The borrower of the running example of the spec. -/
def empJean : Emprunteur := ⟨1, "Jean Dupont", "jean.dupont@example.com", 1⟩

/-- The loan linking `livreA` to `empJean`. -/
def empruntA : Emprunt := ⟨1, 1, 1, 2⟩

/-- A store with one available book and one borrower. -/
def storeReady : Store := ⟨[livreA], [empJean], [], 2, 2, 1, 2⟩

/-- The store after borrowing `livreA`: the book is on loan. -/
def storeLoaned : Store := ⟨[livreApris], [empJean], [empruntA], 2, 2, 2, 3⟩

/-! ### C1 -/

/-- C1: in every store where the book exists with `disponible = true` and
the borrower exists, `create_emprunt` succeeds, appends exactly one new
Loan referencing that book and that borrower, and the committed store also
has the book's flag set to `false`. -/
theorem create_emprunt_success (db : Store) (d : EmpruntCreateDTO) (livre : Livre)
    (hl : get_livre_by_id db d.livre_id = some livre)
    (hd : livre.disponible = true)
    (he : (get_emprunteur_by_id db d.emprunteur_id).isSome = true) :
    ∃ db2 em,
      create_emprunt db d = Except.ok (db2, em)
      ∧ em.livre_id = d.livre_id
      ∧ em.emprunteur_id = d.emprunteur_id
      ∧ db2.emprunts = db.emprunts ++ [em]
      ∧ get_livre_by_id db2 d.livre_id = some { livre with disponible := false } := by
  obtain ⟨emp, hemp⟩ := Option.isSome_iff_exists.mp he
  have hstep : create_emprunt db d = Except.ok
      ({ db with
          emprunts := db.emprunts ++
            [⟨db.nextEmpruntId, d.livre_id, d.emprunteur_id, db.clock⟩]
          livres := db.livres.map
            (fun x => if x.id == d.livre_id
                      then { x with disponible := false } else x)
          nextEmpruntId := db.nextEmpruntId + 1
          clock := db.clock + 1 },
       ⟨db.nextEmpruntId, d.livre_id, d.emprunteur_id, db.clock⟩) := by
    unfold create_emprunt
    rw [hl, hemp]
    simp [hd]
  refine ⟨_, _, hstep, rfl, rfl, rfl, ?_⟩
  exact get_livre_by_id_if_update db d.livre_id livre hl _ (fun x hx => hx)

/-- C1 witness: the running example of the spec. -/
theorem create_emprunt_success_witness :
    ∃ db2 em,
      create_emprunt storeReady ⟨1, 1⟩ = Except.ok (db2, em)
      ∧ em.livre_id = 1
      ∧ em.emprunteur_id = 1
      ∧ db2.emprunts = storeReady.emprunts ++ [em]
      ∧ get_livre_by_id db2 1 = some { livreA with disponible := false } :=
  create_emprunt_success storeReady ⟨1, 1⟩ livreA (by decide) (by decide) (by decide)

/-! ### C5 -/

/-- C5: when the book and the borrower both exist but the book's flag is
`false`, `create_emprunt` raises HTTP 400 and the rolled-back store is
unchanged (no new Loan, no flag change). -/
theorem create_emprunt_unavailable (db : Store) (d : EmpruntCreateDTO) (livre : Livre)
    (hl : get_livre_by_id db d.livre_id = some livre)
    (he : (get_emprunteur_by_id db d.emprunteur_id).isSome = true)
    (hd : livre.disponible = false) :
    (∃ err, create_emprunt db d = Except.error err ∧ err.status = 400)
    ∧ step db (Op.createEmprunt d) = db := by
  obtain ⟨emp, hemp⟩ := Option.isSome_iff_exists.mp he
  have herr : create_emprunt db d =
      Except.error ⟨400, "Le livre " ++ livre.titre ++ " est indisponible"⟩ := by
    unfold create_emprunt
    rw [hl, hemp]
    simp [hd]
  exact ⟨⟨_, herr, rfl⟩, by simp [step, herr]⟩

/-- C5 witness: borrowing the already-loaned book of the running example
fails with 400 and changes nothing. -/
theorem create_emprunt_unavailable_witness :
    ((∃ err, create_emprunt storeLoaned ⟨1, 1⟩ = Except.error err ∧ err.status = 400)
      ∧ step storeLoaned (Op.createEmprunt ⟨1, 1⟩) = storeLoaned) :=
  create_emprunt_unavailable storeLoaned ⟨1, 1⟩ livreApris
    (by decide) (by decide) (by decide)

/-! ### C6 -/

/-- C6: `retourner_livre` raises 404 when the book does not exist, raises
400 when the book is already available, and otherwise succeeds, sets the
flag to `true` and leaves every Loan record unchanged. -/
theorem retourner_livre_spec (db : Store) (lid : Nat) :
    (get_livre_by_id db lid = none →
       ∃ err, retourner_livre db lid = Except.error err ∧ err.status = 404)
    ∧ (∀ livre, get_livre_by_id db lid = some livre → livre.disponible = true →
       ∃ err, retourner_livre db lid = Except.error err ∧ err.status = 400)
    ∧ (∀ livre, get_livre_by_id db lid = some livre → livre.disponible = false →
       ∃ db2, retourner_livre db lid = Except.ok (db2, { livre with disponible := true })
         ∧ db2.emprunts = db.emprunts
         ∧ get_livre_by_id db2 lid = some { livre with disponible := true }) := by
  refine ⟨?_, ?_, ?_⟩
  · intro h
    refine ⟨⟨404, "Livre avec ID " ++ toString lid ++ " non trouve"⟩, ?_, rfl⟩
    unfold retourner_livre
    rw [h]
  · intro livre h hdisp
    refine ⟨⟨400, "Le livre " ++ livre.titre ++ " est deja disponible"⟩, ?_, rfl⟩
    unfold retourner_livre
    rw [h]
    simp [hdisp]
  · intro livre h hdisp
    have hid : livre.id = lid := get_livre_by_id_id db lid livre h
    have hok : retourner_livre db lid = Except.ok
        ({ db with
            livres := db.livres.map
              (fun x => if x.id == lid then { livre with disponible := true } else x) },
         { livre with disponible := true }) := by
      unfold retourner_livre
      rw [h]
      simp [hdisp]
    refine ⟨_, hok, rfl, ?_⟩
    exact get_livre_by_id_if_update db lid livre h _ (fun x _ => hid)

/-- C6 witness: the three branches at concrete stores — missing book,
already-available book, on-loan book. -/
theorem retourner_livre_spec_witness :
    (∃ err, retourner_livre emptyStore 1 = Except.error err ∧ err.status = 404)
    ∧ (∃ err, retourner_livre storeReady 1 = Except.error err ∧ err.status = 400)
    ∧ (∃ db2, retourner_livre storeLoaned 1 =
          Except.ok (db2, { livreApris with disponible := true })
        ∧ db2.emprunts = storeLoaned.emprunts
        ∧ get_livre_by_id db2 1 = some { livreApris with disponible := true }) :=
  ⟨(retourner_livre_spec emptyStore 1).1 (by decide),
   (retourner_livre_spec storeReady 1).2.1 livreA (by decide) (by decide),
   (retourner_livre_spec storeLoaned 1).2.2 livreApris (by decide) (by decide)⟩

/-! ### C7 -/

/-- C7: for an existing borrower, `delete_emprunteur` fails with 400 and
keeps the store exactly when the count of Loans referencing the borrower
is positive; with zero referencing Loans the borrower is removed. -/
theorem delete_emprunteur_spec (db : Store) (eid : Nat)
    (he : (get_emprunteur_by_id db eid).isSome = true) :
    ((db.emprunts.filter (fun x => x.emprunteur_id == eid)).length > 0 →
       (∃ err, delete_emprunteur db eid = Except.error err ∧ err.status = 400)
       ∧ step db (Op.deleteEmprunteur eid) = db)
    ∧ ((db.emprunts.filter (fun x => x.emprunteur_id == eid)).length = 0 →
       delete_emprunteur db eid = Except.ok
           { db with emprunteurs := db.emprunteurs.filter (fun x => x.id != eid) }
       ∧ get_emprunteur_by_id
           { db with emprunteurs := db.emprunteurs.filter (fun x => x.id != eid) } eid
           = none) := by
  obtain ⟨emp, hemp⟩ := Option.isSome_iff_exists.mp he
  have hemp2 : db.emprunteurs.find? (fun e => e.id == eid) = some emp := hemp
  constructor
  · intro hn
    have herr : delete_emprunteur db eid =
        Except.error ⟨400, "Impossible de supprimer emprunteur " ++ toString eid⟩ := by
      unfold delete_emprunteur
      rw [hemp2]
      simp [hn]
    exact ⟨⟨_, herr, rfl⟩, by simp [step, herr]⟩
  · intro hz
    have hok : delete_emprunteur db eid = Except.ok
        { db with emprunteurs := db.emprunteurs.filter (fun x => x.id != eid) } := by
      unfold delete_emprunteur
      rw [hemp2]
      simp [hz]
    refine ⟨hok, ?_⟩
    unfold get_emprunteur_by_id
    rw [List.find?_eq_none]
    intro x hx
    have := (List.mem_filter.mp hx).2
    simpa using this

/-- C7 witness: deleting the borrower while the loan exists fails with 400
and keeps the store; deleting the borrower of the loan-free store removes
them. -/
theorem delete_emprunteur_spec_witness :
    (((∃ err, delete_emprunteur storeLoaned 1 = Except.error err ∧ err.status = 400)
       ∧ step storeLoaned (Op.deleteEmprunteur 1) = storeLoaned)
     ∧ (delete_emprunteur storeReady 1 = Except.ok
          { storeReady with
              emprunteurs := storeReady.emprunteurs.filter (fun x => x.id != 1) }
        ∧ get_emprunteur_by_id
            { storeReady with
                emprunteurs := storeReady.emprunteurs.filter (fun x => x.id != 1) } 1
            = none)) :=
  ⟨(delete_emprunteur_spec storeLoaned 1 (by decide)).1 (by decide),
   (delete_emprunteur_spec storeReady 1 (by decide)).2 (by decide)⟩

/-! ### C8 -/

/-- C8: `create_emprunteur` fails with 400 and leaves the store unchanged
exactly when a borrower with the same email exists; otherwise it appends
exactly one new borrower carrying the given name and email. -/
theorem create_emprunteur_spec (db : Store) (d : EmprunteurCreateDTO) :
    ((get_emprunteur_by_email db d.email).isSome = true →
       (∃ err, create_emprunteur db d = Except.error err ∧ err.status = 400)
       ∧ step db (Op.createEmprunteur d) = db)
    ∧ (get_emprunteur_by_email db d.email = none →
       ∃ db2 e, create_emprunteur db d = Except.ok (db2, e)
         ∧ e.nom = d.nom ∧ e.email = d.email
         ∧ db2.emprunteurs = db.emprunteurs ++ [e]
         ∧ db2.livres = db.livres ∧ db2.emprunts = db.emprunts) := by
  constructor
  · intro hs
    obtain ⟨emp, hemp⟩ := Option.isSome_iff_exists.mp hs
    have herr : create_emprunteur db d =
        Except.error ⟨400, "Un emprunteur avec email " ++ d.email ++ " existe deja"⟩ := by
      unfold create_emprunteur
      rw [hemp]
    exact ⟨⟨_, herr, rfl⟩, by simp [step, herr]⟩
  · intro hn
    have hok : create_emprunteur db d = Except.ok
        ({ db with
            emprunteurs := db.emprunteurs ++
              [⟨db.nextEmprunteurId, d.nom, d.email, db.clock⟩]
            nextEmprunteurId := db.nextEmprunteurId + 1
            clock := db.clock + 1 },
         ⟨db.nextEmprunteurId, d.nom, d.email, db.clock⟩) := by
      unfold create_emprunteur
      rw [hn]
    exact ⟨_, _, hok, rfl, rfl, rfl, rfl, rfl⟩

/-- C8 witness: the duplicate email of `empJean` is rejected with 400 and
the store kept; a fresh email is inserted. -/
theorem create_emprunteur_spec_witness :
    (((∃ err, create_emprunteur storeReady ⟨"X", "jean.dupont@example.com"⟩
          = Except.error err ∧ err.status = 400)
       ∧ step storeReady (Op.createEmprunteur ⟨"X", "jean.dupont@example.com"⟩)
          = storeReady)
     ∧ (∃ db2 e, create_emprunteur storeReady ⟨"Cosette", "cosette@example.com"⟩
          = Except.ok (db2, e)
        ∧ e.nom = "Cosette" ∧ e.email = "cosette@example.com"
        ∧ db2.emprunteurs = storeReady.emprunteurs ++ [e]
        ∧ db2.livres = storeReady.livres ∧ db2.emprunts = storeReady.emprunts)) :=
  ⟨(create_emprunteur_spec storeReady ⟨"X", "jean.dupont@example.com"⟩).1 (by decide),
   (create_emprunteur_spec storeReady ⟨"Cosette", "cosette@example.com"⟩).2 (by decide)⟩

/-! ### C3 -/

/-- C3, the code evaluated at the failing input: a store in which one Loan
references book 1, yet `delete_livre` on book 1 succeeds and the cascade
silently deletes both the book and its Loan — no `IntegrityError`, so the
400 handler of the source is dead code. -/
theorem delete_livre_cascades_on_loaned_book :
    (storeLoaned.emprunts.filter (fun e => e.livre_id == 1)).length = 1
    ∧ delete_livre storeLoaned 1 =
        Except.ok { storeLoaned with livres := [], emprunts := [] } := by
  exact ⟨rfl, rfl⟩

/-! ### C9 -/

/-- 150 books, ids 1..150, all available. -/
def manyLivres : List Livre :=
  (List.range 150).map (fun i => ⟨i + 1, "Titre", "Auteur", 2000, true, 0⟩)

/-- A store holding the 150 books. -/
def storeMany : Store := ⟨manyLivres, [], [], 151, 1, 1, 0⟩

/-- C9, the code evaluated at the failing input: a request for
`limit = 150` returns 150 records — the caller-supplied limit is passed
straight to the store, so listings are not bounded by the documented
maximum page size of 100. -/
theorem get_livres_exceeds_max_page :
    (get_livres storeMany 0 150).length = 150
    ∧ 100 < (get_livres storeMany 0 150).length := by
  have h : (get_livres storeMany 0 150).length = 150 := by
    simp [get_livres, storeMany, manyLivres]
  exact ⟨h, by rw [h]; norm_num⟩

/-! ### C4 -/

/-- C4 counterexample: it is not true that every Loan record survives every
operation — `delete_livre` on book 1 of `storeLoaned` deletes Loan
`empruntA`. -/
theorem emprunt_deleted_by_delete_livre :
    ¬ ∀ (db : Store) (op : Op), ∀ e ∈ db.emprunts, e ∈ (step db op).emprunts := by
  intro h
  have hmem := h storeLoaned (Op.deleteLivre 1) empruntA (by decide)
  revert hmem
  decide

/-- C4 amended: a Loan record, once created, is never modified, and the
only operation that deletes one is `delete_livre` on the very book the
Loan references (the `delete-orphan` cascade); every other operation keeps
every existing Loan record unchanged. -/
theorem emprunt_immutable_except_cascade (db : Store) (op : Op) (e : Emprunt)
    (he : e ∈ db.emprunts) :
    e ∈ (step db op).emprunts
    ∨ ∃ lid, op = Op.deleteLivre lid ∧ e.livre_id = lid := by
  cases op with
  | createLivre d =>
      exact Or.inl (by simpa [step, create_livre] using he)
  | updateLivre lid d =>
      left
      cases hf : get_livre_by_id db lid with
      | none => simpa [step, update_livre, hf] using he
      | some l => simpa [step, update_livre, hf] using he
  | deleteLivre lid =>
      by_cases hl : e.livre_id = lid
      · exact Or.inr ⟨lid, rfl, hl⟩
      · left
        cases hf : get_livre_by_id db lid with
        | none => simpa [step, delete_livre, hf] using he
        | some l =>
            simp [step, delete_livre, hf, List.mem_filter]
            exact ⟨he, hl⟩
  | setLivreDisponibilite lid b =>
      left
      cases hf : get_livre_by_id db lid with
      | none => simpa [step, set_livre_disponibilite, hf] using he
      | some l => simpa [step, set_livre_disponibilite, hf] using he
  | createEmprunteur d =>
      left
      cases hf : get_emprunteur_by_email db d.email with
      | none => simpa [step, create_emprunteur, hf] using he
      | some x => simpa [step, create_emprunteur, hf] using he
  | deleteEmprunteur eid =>
      left
      cases hf : db.emprunteurs.find? (fun x => x.id == eid) with
      | none => simpa [step, delete_emprunteur, hf] using he
      | some x =>
          by_cases hn :
              (db.emprunts.filter (fun x => x.emprunteur_id == eid)).length > 0
          · simpa [step, delete_emprunteur, hf, hn] using he
          · simpa [step, delete_emprunteur, hf, hn] using he
  | createEmprunt d =>
      left
      cases hf : get_livre_by_id db d.livre_id with
      | none => simpa [step, create_emprunt, hf] using he
      | some livre =>
          cases hg : get_emprunteur_by_id db d.emprunteur_id with
          | none => simpa [step, create_emprunt, hf, hg] using he
          | some emp =>
              by_cases hd : livre.disponible = false
              · simpa [step, create_emprunt, hf, hg, hd] using he
              · simp [step, create_emprunt, hf, hg, hd, List.mem_append]
                exact Or.inl he
  | retournerLivre lid =>
      left
      cases hf : get_livre_by_id db lid with
      | none => simpa [step, retourner_livre, hf] using he
      | some livre =>
          by_cases hd : livre.disponible = true
          · simpa [step, retourner_livre, hf, hd] using he
          · simpa [step, retourner_livre, hf, hd] using he

/-- C4 amended witness: returning the book keeps the Loan record. -/
theorem emprunt_immutable_except_cascade_witness :
    empruntA ∈ (step storeLoaned (Op.retournerLivre 1)).emprunts
    ∨ ∃ lid, Op.retournerLivre 1 = Op.deleteLivre lid ∧ empruntA.livre_id = lid :=
  emprunt_immutable_except_cascade storeLoaned (Op.retournerLivre 1) empruntA
    (by decide)

/-! ### C10 -/

/-- C10: for an existing book and an update payload with
`disponible = some b`, `update_livre` succeeds and sets the flag of that
book to `b` directly; the Loan table is neither consulted nor changed —
the same result holds for an arbitrary Loan table `es`, which is passed
through untouched. -/
theorem update_livre_sets_disponible (db : Store) (lid : Nat) (d : LivreUpdateDTO)
    (b : Bool) (livre : Livre) (es : List Emprunt)
    (hl : get_livre_by_id db lid = some livre)
    (hb : d.disponible = some b) :
    (applyLivreUpdate d livre).disponible = b
    ∧ update_livre { db with emprunts := es } lid d = Except.ok
        ({ db with
            emprunts := es
            livres := db.livres.map
              (fun x => if x.id == lid then applyLivreUpdate d livre else x) },
         applyLivreUpdate d livre)
    ∧ get_livre_by_id
        { db with
            livres := db.livres.map
              (fun x => if x.id == lid then applyLivreUpdate d livre else x) } lid
        = some (applyLivreUpdate d livre) := by
  have hid : livre.id = lid := get_livre_by_id_id db lid livre hl
  refine ⟨applyLivreUpdate_disponible d livre b hb, ?_, ?_⟩
  · have hl2 : get_livre_by_id { db with emprunts := es } lid = some livre := hl
    unfold update_livre
    rw [hl2]
  · exact get_livre_by_id_if_update db lid livre hl _
      (fun x _ => by rw [applyLivreUpdate_id]; exact hid)

/-- C10 witness: pushing `disponible := false` onto the available book of
the running example through the generic update. -/
theorem update_livre_sets_disponible_witness :
    (applyLivreUpdate ⟨none, none, none, some false⟩ livreA).disponible = false
    ∧ update_livre { storeReady with emprunts := [empruntA] } 1
        ⟨none, none, none, some false⟩ = Except.ok
        ({ storeReady with
            emprunts := [empruntA]
            livres := storeReady.livres.map
              (fun x => if x.id == 1
                        then applyLivreUpdate ⟨none, none, none, some false⟩ livreA
                        else x) },
         applyLivreUpdate ⟨none, none, none, some false⟩ livreA)
    ∧ get_livre_by_id
        { storeReady with
            livres := storeReady.livres.map
              (fun x => if x.id == 1
                        then applyLivreUpdate ⟨none, none, none, some false⟩ livreA
                        else x) } 1
        = some (applyLivreUpdate ⟨none, none, none, some false⟩ livreA) :=
  update_livre_sets_disponible storeReady 1 ⟨none, none, none, some false⟩
    false livreA [empruntA] (by decide) (by decide)

/-! ### C2 -/

/-- A reachable trace violating the claimed invariant: create a book, then
push `disponible := false` through the generic update while no Loan
exists. -/
def c2Trace : List Op :=
  [Op.createLivre ⟨"Les Miserables", "Victor Hugo", 1862⟩,
   Op.updateLivre 1 ⟨none, none, none, some false⟩]

/-- C2 counterexample: after the reachable trace `c2Trace` the single book
has `disponible = false` while the store holds no Loan record at all, so
the claimed iff between the flag and unreversed Loans fails. -/
theorem flagLoanInvariant_violated :
    ¬ flagLoanInvariant (runA c2Trace) ∧ (runA c2Trace).1.emprunts = [] := by
  exact ⟨by decide, by decide⟩

/-- Operations that leave the availability flag to the borrow/return state
machine: the generic update carries no `disponible` field and the direct
setter is never used (as in the deployed routers, which do not expose
`set_livre_disponibilite`). -/
def availabilityDisciplined : Op → Bool
  | Op.updateLivre _ d => d.disponible == none
  | Op.setLivreDisponibilite _ _ => false
  | _ => true

/-- Auxiliary invariant tying the store to the unreversed-loan tracker:
the claimed iff for every book, plus freshness of the book-id counter. -/
def StoreInv (p : Store × List Nat) : Prop :=
  (∀ b ∈ p.1.livres, (b.disponible = false ↔ b.id ∈ p.2))
  ∧ (∀ a ∈ p.2, a < p.1.nextLivreId)
  ∧ (∀ b ∈ p.1.livres, b.id < p.1.nextLivreId)

theorem stepA_preserves (p : Store × List Nat) (op : Op)
    (hp : StoreInv p) (hop : availabilityDisciplined op = true) :
    StoreInv (stepA p op) := by
  obtain ⟨db, act⟩ := p
  obtain ⟨h1, h2, h3⟩ := hp
  cases op with
  | createLivre d =>
      have hstep : stepA (db, act) (Op.createLivre d) =
          ({ db with
              livres := db.livres ++
                [⟨db.nextLivreId, d.titre, d.auteur, d.annee_publication, true,
                  db.clock⟩]
              nextLivreId := db.nextLivreId + 1
              clock := db.clock + 1 }, act) := by
        simp [stepA, step, specUnreversed, create_livre]
      rw [hstep]
      refine ⟨?_, ?_, ?_⟩
      · intro b hb
        rcases List.mem_append.mp hb with hb | hb
        · exact h1 b hb
        · rw [List.mem_singleton] at hb
          subst hb
          constructor
          · intro hfalse
            exact Bool.noConfusion hfalse
          · intro hmem
            exact absurd (h2 _ hmem) (lt_irrefl _)
      · intro a ha
        exact Nat.lt_succ_of_lt (h2 a ha)
      · intro b hb
        rcases List.mem_append.mp hb with hb | hb
        · exact Nat.lt_succ_of_lt (h3 b hb)
        · rw [List.mem_singleton] at hb
          subst hb
          exact Nat.lt_succ_self _
  | updateLivre lid d =>
      have hd : d.disponible = none := by
        simpa [availabilityDisciplined] using hop
      cases hf : get_livre_by_id db lid with
      | none =>
          have hu : update_livre db lid d = Except.error
              ⟨404, "Livre avec ID " ++ toString lid ++ " non trouve"⟩ := by
            unfold update_livre
            rw [hf]
          have hstep : stepA (db, act) (Op.updateLivre lid d) = (db, act) := by
            simp [stepA, step, specUnreversed, hu]
          rw [hstep]
          exact ⟨h1, h2, h3⟩
      | some l =>
          have hdisp := applyLivreUpdate_disponible_none d l hd
          have hid := applyLivreUpdate_id d l
          have hmem := get_livre_by_id_mem db lid l hf
          have hu : update_livre db lid d = Except.ok
              ({ db with
                  livres := db.livres.map
                    (fun x => if x.id == lid then applyLivreUpdate d l else x) },
               applyLivreUpdate d l) := by
            unfold update_livre
            rw [hf]
          have hstep : stepA (db, act) (Op.updateLivre lid d) =
              ({ db with
                  livres := db.livres.map
                    (fun x => if x.id == lid then applyLivreUpdate d l else x) },
               act) := by
            simp [stepA, step, specUnreversed, hu]
          rw [hstep]
          refine ⟨?_, ?_, ?_⟩
          · intro b hb
            obtain ⟨x, hx, hxb⟩ := List.mem_map.mp hb
            by_cases hxid : x.id = lid
            · have hbx : b = applyLivreUpdate d l := by
                rw [← hxb]
                simp [hxid]
              subst hbx
              rw [hdisp, hid]
              exact h1 l hmem
            · have hbx : b = x := by
                rw [← hxb]
                simp [hxid]
              subst hbx
              exact h1 _ hx
          · exact h2
          · intro b hb
            obtain ⟨x, hx, hxb⟩ := List.mem_map.mp hb
            by_cases hxid : x.id = lid
            · have hbx : b = applyLivreUpdate d l := by
                rw [← hxb]
                simp [hxid]
              subst hbx
              rw [hid]
              exact h3 l hmem
            · have hbx : b = x := by
                rw [← hxb]
                simp [hxid]
              subst hbx
              exact h3 _ hx
  | deleteLivre lid =>
      cases hf : get_livre_by_id db lid with
      | none =>
          have hu : delete_livre db lid = Except.error
              ⟨404, "Livre avec ID " ++ toString lid ++ " non trouve"⟩ := by
            unfold delete_livre
            rw [hf]
          have hstep : stepA (db, act) (Op.deleteLivre lid) = (db, act) := by
            simp [stepA, step, specUnreversed, hu]
          rw [hstep]
          exact ⟨h1, h2, h3⟩
      | some l =>
          have hu : delete_livre db lid = Except.ok
              { db with
                  livres := db.livres.filter (fun x => x.id != lid)
                  emprunts := db.emprunts.filter (fun e => e.livre_id != lid) } := by
            unfold delete_livre
            rw [hf]
          have hstep : stepA (db, act) (Op.deleteLivre lid) =
              ({ db with
                  livres := db.livres.filter (fun x => x.id != lid)
                  emprunts := db.emprunts.filter (fun e => e.livre_id != lid) },
               act.filter (fun x => x != lid)) := by
            simp [stepA, step, specUnreversed, hu]
          rw [hstep]
          refine ⟨?_, ?_, ?_⟩
          · intro b hb
            obtain ⟨hbm, hbne⟩ := List.mem_filter.mp hb
            have hbne2 : b.id ≠ lid := by simpa using hbne
            rw [h1 b hbm]
            simp [List.mem_filter, hbne2]
          · intro a ha
            exact h2 a (List.mem_filter.mp ha).1
          · intro b hb
            exact h3 b (List.mem_filter.mp hb).1
  | setLivreDisponibilite lid b =>
      exact absurd hop (by simp [availabilityDisciplined])
  | createEmprunteur d =>
      cases hf : get_emprunteur_by_email db d.email with
      | some x =>
          have hu : create_emprunteur db d = Except.error
              ⟨400, "Un emprunteur avec email " ++ d.email ++ " existe deja"⟩ := by
            unfold create_emprunteur
            rw [hf]
          have hstep : stepA (db, act) (Op.createEmprunteur d) = (db, act) := by
            simp [stepA, step, specUnreversed, hu]
          rw [hstep]
          exact ⟨h1, h2, h3⟩
      | none =>
          have hu : create_emprunteur db d = Except.ok
              ({ db with
                  emprunteurs := db.emprunteurs ++
                    [⟨db.nextEmprunteurId, d.nom, d.email, db.clock⟩]
                  nextEmprunteurId := db.nextEmprunteurId + 1
                  clock := db.clock + 1 },
               ⟨db.nextEmprunteurId, d.nom, d.email, db.clock⟩) := by
            unfold create_emprunteur
            rw [hf]
          have hstep : stepA (db, act) (Op.createEmprunteur d) =
              ({ db with
                  emprunteurs := db.emprunteurs ++
                    [⟨db.nextEmprunteurId, d.nom, d.email, db.clock⟩]
                  nextEmprunteurId := db.nextEmprunteurId + 1
                  clock := db.clock + 1 }, act) := by
            simp [stepA, step, specUnreversed, hu]
          rw [hstep]
          exact ⟨h1, h2, h3⟩
  | deleteEmprunteur eid =>
      cases hf : db.emprunteurs.find? (fun e => e.id == eid) with
      | none =>
          have hu : delete_emprunteur db eid = Except.error
              ⟨404, "Emprunteur avec ID " ++ toString eid ++ " non trouve"⟩ := by
            unfold delete_emprunteur
            rw [hf]
          have hstep : stepA (db, act) (Op.deleteEmprunteur eid) = (db, act) := by
            simp [stepA, step, specUnreversed, hu]
          rw [hstep]
          exact ⟨h1, h2, h3⟩
      | some x =>
          by_cases hn :
              (db.emprunts.filter (fun e => e.emprunteur_id == eid)).length > 0
          · have hu : delete_emprunteur db eid = Except.error
                ⟨400, "Impossible de supprimer emprunteur " ++ toString eid⟩ := by
              unfold delete_emprunteur
              rw [hf]
              simp [hn]
            have hstep : stepA (db, act) (Op.deleteEmprunteur eid) = (db, act) := by
              simp [stepA, step, specUnreversed, hu]
            rw [hstep]
            exact ⟨h1, h2, h3⟩
          · have hu : delete_emprunteur db eid = Except.ok
                { db with
                    emprunteurs := db.emprunteurs.filter (fun e => e.id != eid) } := by
              unfold delete_emprunteur
              rw [hf]
              simp [hn]
            have hstep : stepA (db, act) (Op.deleteEmprunteur eid) =
                ({ db with
                    emprunteurs := db.emprunteurs.filter (fun e => e.id != eid) },
                 act) := by
              simp [stepA, step, specUnreversed, hu]
            rw [hstep]
            exact ⟨h1, h2, h3⟩
  | createEmprunt d =>
      cases hf : get_livre_by_id db d.livre_id with
      | none =>
          have hu : create_emprunt db d = Except.error
              ⟨404, "Livre avec ID " ++ toString d.livre_id ++ " non trouve"⟩ := by
            unfold create_emprunt
            rw [hf]
          have hstep : stepA (db, act) (Op.createEmprunt d) = (db, act) := by
            simp [stepA, step, specUnreversed, hu]
          rw [hstep]
          exact ⟨h1, h2, h3⟩
      | some livre =>
          cases hg : get_emprunteur_by_id db d.emprunteur_id with
          | none =>
              have hu : create_emprunt db d = Except.error
                  ⟨404, "Emprunteur avec ID " ++ toString d.emprunteur_id
                    ++ " non trouve"⟩ := by
                unfold create_emprunt
                rw [hf, hg]
              have hstep : stepA (db, act) (Op.createEmprunt d) = (db, act) := by
                simp [stepA, step, specUnreversed, hu]
              rw [hstep]
              exact ⟨h1, h2, h3⟩
          | some emp =>
              by_cases hd : livre.disponible = false
              · have hu : create_emprunt db d = Except.error
                    ⟨400, "Le livre " ++ livre.titre ++ " est indisponible"⟩ := by
                  unfold create_emprunt
                  rw [hf, hg]
                  simp [hd]
                have hstep : stepA (db, act) (Op.createEmprunt d) = (db, act) := by
                  simp [stepA, step, specUnreversed, hu]
                rw [hstep]
                exact ⟨h1, h2, h3⟩
              · have htrue : livre.disponible = true := by
                  cases hlb : livre.disponible
                  · exact absurd hlb hd
                  · rfl
                have hu : create_emprunt db d = Except.ok
                    ({ db with
                        emprunts := db.emprunts ++
                          [⟨db.nextEmpruntId, d.livre_id, d.emprunteur_id, db.clock⟩]
                        livres := db.livres.map
                          (fun x => if x.id == d.livre_id
                                    then { x with disponible := false } else x)
                        nextEmpruntId := db.nextEmpruntId + 1
                        clock := db.clock + 1 },
                     ⟨db.nextEmpruntId, d.livre_id, d.emprunteur_id, db.clock⟩) := by
                  unfold create_emprunt
                  rw [hf, hg]
                  simp [htrue]
                have hstep : stepA (db, act) (Op.createEmprunt d) =
                    ({ db with
                        emprunts := db.emprunts ++
                          [⟨db.nextEmpruntId, d.livre_id, d.emprunteur_id, db.clock⟩]
                        livres := db.livres.map
                          (fun x => if x.id == d.livre_id
                                    then { x with disponible := false } else x)
                        nextEmpruntId := db.nextEmpruntId + 1
                        clock := db.clock + 1 },
                     d.livre_id :: act) := by
                  simp [stepA, step, specUnreversed, hu]
                rw [hstep]
                have hlid : livre.id = d.livre_id :=
                  get_livre_by_id_id db d.livre_id livre hf
                have hmem : livre ∈ db.livres :=
                  get_livre_by_id_mem db d.livre_id livre hf
                refine ⟨?_, ?_, ?_⟩
                · intro b hb
                  obtain ⟨x, hx, hxb⟩ := List.mem_map.mp hb
                  by_cases hxid : x.id = d.livre_id
                  · have hbx : b = { x with disponible := false } := by
                      rw [← hxb]
                      simp [hxid]
                    subst hbx
                    constructor
                    · intro _
                      simp [hxid]
                    · intro _
                      rfl
                  · have hbx : b = x := by
                      rw [← hxb]
                      simp [hxid]
                    subst hbx
                    rw [h1 _ hx]
                    simp [List.mem_cons, hxid]
                · intro a ha
                  rcases List.mem_cons.mp ha with ha | ha
                  · subst ha
                    rw [← hlid]
                    exact h3 livre hmem
                  · exact h2 a ha
                · intro b hb
                  obtain ⟨x, hx, hxb⟩ := List.mem_map.mp hb
                  by_cases hxid : x.id = d.livre_id
                  · have hbx : b = { x with disponible := false } := by
                      rw [← hxb]
                      simp [hxid]
                    subst hbx
                    exact h3 x hx
                  · have hbx : b = x := by
                      rw [← hxb]
                      simp [hxid]
                    subst hbx
                    exact h3 _ hx
  | retournerLivre lid =>
      cases hf : get_livre_by_id db lid with
      | none =>
          have hu : retourner_livre db lid = Except.error
              ⟨404, "Livre avec ID " ++ toString lid ++ " non trouve"⟩ := by
            unfold retourner_livre
            rw [hf]
          have hstep : stepA (db, act) (Op.retournerLivre lid) = (db, act) := by
            simp [stepA, step, specUnreversed, hu]
          rw [hstep]
          exact ⟨h1, h2, h3⟩
      | some livre =>
          by_cases hd : livre.disponible = true
          · have hu : retourner_livre db lid = Except.error
                ⟨400, "Le livre " ++ livre.titre ++ " est deja disponible"⟩ := by
              unfold retourner_livre
              rw [hf]
              simp [hd]
            have hstep : stepA (db, act) (Op.retournerLivre lid) = (db, act) := by
              simp [stepA, step, specUnreversed, hu]
            rw [hstep]
            exact ⟨h1, h2, h3⟩
          · have hfd : livre.disponible = false := by
              cases hlb : livre.disponible
              · rfl
              · exact absurd hlb hd
            have hu : retourner_livre db lid = Except.ok
                ({ db with
                    livres := db.livres.map
                      (fun x => if x.id == lid
                                then { livre with disponible := true } else x) },
                 { livre with disponible := true }) := by
              unfold retourner_livre
              rw [hf]
              simp [hfd]
            have hstep : stepA (db, act) (Op.retournerLivre lid) =
                ({ db with
                    livres := db.livres.map
                      (fun x => if x.id == lid
                                then { livre with disponible := true } else x) },
                 act.filter (fun x => x != lid)) := by
              simp [stepA, step, specUnreversed, hu]
            rw [hstep]
            have hlid : livre.id = lid := get_livre_by_id_id db lid livre hf
            have hmem : livre ∈ db.livres := get_livre_by_id_mem db lid livre hf
            refine ⟨?_, ?_, ?_⟩
            · intro b hb
              obtain ⟨x, hx, hxb⟩ := List.mem_map.mp hb
              by_cases hxid : x.id = lid
              · have hbx : b = { livre with disponible := true } := by
                  rw [← hxb]
                  simp [hxid]
                subst hbx
                constructor
                · intro hfalse
                  exact Bool.noConfusion hfalse
                · intro hmem2
                  have hmf : livre.id ∈ act.filter (fun x => x != lid) := hmem2
                  have hne := (List.mem_filter.mp hmf).2
                  rw [hlid] at hne
                  simp at hne
              · have hbx : b = x := by
                  rw [← hxb]
                  simp [hxid]
                subst hbx
                rw [h1 _ hx]
                constructor
                · intro hm
                  exact List.mem_filter.mpr ⟨hm, by simpa using hxid⟩
                · intro hm
                  exact (List.mem_filter.mp hm).1
            · intro a ha
              exact h2 a (List.mem_filter.mp ha).1
            · intro b hb
              obtain ⟨x, hx, hxb⟩ := List.mem_map.mp hb
              by_cases hxid : x.id = lid
              · have hbx : b = { livre with disponible := true } := by
                  rw [← hxb]
                  simp [hxid]
                subst hbx
                exact h3 livre hmem
              · have hbx : b = x := by
                  rw [← hxb]
                  simp [hxid]
                subst hbx
                exact h3 _ hx

theorem runA_StoreInv (tr : List Op)
    (h : ∀ op ∈ tr, availabilityDisciplined op = true) :
    StoreInv (runA tr) := by
  have base : StoreInv (emptyStore, []) := by
    refine ⟨?_, ?_, ?_⟩ <;> intro x hx <;> simp [emptyStore] at hx
  have main : ∀ (l : List Op) (p : Store × List Nat), StoreInv p →
      (∀ op ∈ l, availabilityDisciplined op = true) →
      StoreInv (l.foldl stepA p) := by
    intro l
    induction l with
    | nil =>
        intro p hp _
        exact hp
    | cons op t ih =>
        intro p hp hl
        exact ih _ (stepA_preserves p op hp (hl op (List.mem_cons_self op t)))
          (fun o ho => hl o (List.mem_cons_of_mem op ho))
  exact main tr (emptyStore, []) base h

/-- C2 amended: for every trace of operations that leaves availability to
the borrow/return state machine (no `disponible` in a generic update and
no direct setter), every reachable state satisfies the invariant: a book's
flag is `false` iff the book has at least one unreversed Loan. -/
theorem flagLoanInvariant_of_disciplined (tr : List Op)
    (h : ∀ op ∈ tr, availabilityDisciplined op = true) :
    flagLoanInvariant (runA tr) :=
  (runA_StoreInv tr h).1

/-- A disciplined trace exercising the whole state machine: create, borrow,
return. -/
def c2GoodTrace : List Op :=
  [Op.createLivre ⟨"Les Miserables", "Victor Hugo", 1862⟩,
   Op.createEmprunteur ⟨"Jean Dupont", "jean.dupont@example.com"⟩,
   Op.createEmprunt ⟨1, 1⟩,
   Op.retournerLivre 1]

/-- C2 amended witness: the invariant holds along the spec's running
example trace. -/
theorem flagLoanInvariant_of_disciplined_witness :
    flagLoanInvariant (runA c2GoodTrace) :=
  flagLoanInvariant_of_disciplined c2GoodTrace (by decide)
